import Mathlib

/-!
Verification development for the IEPA document retrieval and summarization
pipeline.  The TypeScript source is shallowly embedded: every external effect
(the browser automation session, the portal's DOM, the PDF parser, the OCR
engine, the summarization service) is abstracted into an explicit environment
record, and each source function becomes a pure Lean function over that
environment, mirroring the source's control flow branch for branch.

Source files embedded here:
  * `src/lib/iepa-scraper.ts` (the canonical "v8" scraper class:
    `searchFacilities`, `downloadDocument`)
  * `src/app/api/process-all/route.ts` (`summarizeDocument`, the per-document
    processing loop of `POST`, and the final `ProcessingResult`)
  * `src/app/api/summarize-pdf/route.ts` (`extractTextFromPdf`, `performOCR`)
-/

namespace IEPA

/-! ## JavaScript-runtime value model

The summarization collaborator returns parsed JSON whose fields may be missing
or mistyped; the route code inspects them with JS truthiness, `Array.isArray`
and `Array.prototype.includes`.  We model runtime JSON values explicitly
(`null` also stands for `undefined`: both are falsy, neither is an array, and
neither compares equal to a string, so the two are indistinguishable to every
operation the source performs on these fields). -/

inductive Json where
  | null : Json
  | bool (b : Bool) : Json
  | num (n : Int) : Json
  | str (s : String) : Json
  | arr (elems : List Json) : Json

/-- JS truthiness of a runtime value (`NaN` does not arise here). -/
def jsTruthy : Json → Bool
  | Json.null => false
  | Json.bool b => b
  | Json.num n => n != 0
  | Json.str s => s != ""
  | Json.arr _ => true

/-- `v || fallback` where the fallback is a string literal, as used for the
scalar fields of the parsed summary. -/
def jsOr (v : Json) (fallback : String) : Json :=
  if jsTruthy v then v else Json.str fallback

/-- `Array.isArray(v) ? v : []`, as used for the two list fields. -/
def jsArrOrEmpty (v : Json) : Json :=
  match v with
  | Json.arr xs => Json.arr xs
  | _ => Json.arr []

/-! ## Data model (`src/lib/iepa-scraper.ts` interfaces) -/

/-- `DocumentInfo` from `src/lib/iepa-scraper.ts`. -/
structure DocumentInfo where
  id : String
  type : String
  date : String
  category : String
  description : String
  viewerUrl : Option String
  rowIndex : Option Nat
deriving DecidableEq, Repr

/-- `DownloadedDocument` from `src/lib/iepa-scraper.ts`: the descriptor plus
the raw bytes (modelled as a list of byte values) and a filename. -/
structure DownloadedDocument where
  info : DocumentInfo
  pdfBuffer : List Nat
  filename : String
deriving DecidableEq, Repr

/-- `FacilityResult` from `src/lib/iepa-scraper.ts`. -/
structure FacilityResult where
  id : String
  name : String
  address : String
  city : String
  county : String
  zip : String
  programs : List String
  link : String
deriving DecidableEq, Repr

/-! ## Summarization collaborator (`summarizeDocument`,
`src/app/api/process-all/route.ts` lines 120-196)

The OpenAI call is an oracle.  Its four possible observable outcomes are: the
API call throws; the response content is null/empty (the code then throws
`Empty response`, caught by the same `catch`); `JSON.parse` throws; or a JSON
object is parsed, whose fields are arbitrary runtime values. -/

/-- Fields of the JSON object parsed from the collaborator's response.  Every
field is an arbitrary runtime value: missing fields are `Json.null`. -/
structure ParsedSummary where
  documentId : Json
  date : Json
  type : Json
  siteContext : Json
  contaminantsOfConcern : Json
  impactedMedia : Json
  keyActions : Json
  relevanceFlag : Json
  fullSummary : Json

/-- Outcome of one collaborator call. -/
inductive AIOutcome where
  | apiError (msg : String) : AIOutcome
  | emptyContent : AIOutcome
  | invalidJson (msg : String) : AIOutcome
  | parsed (p : ParsedSummary) : AIOutcome

/-- Which outcomes are collaborator failures (everything that lands in the
`catch` block of `summarizeDocument`). -/
def AIOutcome.isFailure : AIOutcome → Bool
  | AIOutcome.parsed _ => false
  | _ => true

/-- The error message carried into the `catch` block. -/
def AIOutcome.failureMsg : AIOutcome → String
  | AIOutcome.apiError m => m
  | AIOutcome.emptyContent => "Empty response"
  | AIOutcome.invalidJson m => m
  | AIOutcome.parsed _ => ""

/-- The `DocumentSummary` record built by `summarizeDocument`
(`src/app/api/process-all/route.ts` lines 20-31).  Field values are runtime
values, since the source copies parsed JSON fields through unchanged when they
are truthy. -/
structure DocumentSummaryJs where
  documentId : Json
  date : Json
  type : Json
  siteContext : Json
  contaminantsOfConcern : Json
  impactedMedia : Json
  keyActions : Json
  relevanceFlag : Json
  fullSummary : Json
  error : Option String

/-- The placeholder summary returned by the `catch` block of
`summarizeDocument` (lines 182-195). -/
def errorSummary (doc : DocumentInfo) (msg : String) : DocumentSummaryJs :=
  { documentId := Json.str doc.id
    date := Json.str doc.date
    type := Json.str doc.type
    siteContext := Json.str "Processing error"
    contaminantsOfConcern := Json.arr []
    impactedMedia := Json.arr []
    keyActions := Json.str "Error during processing"
    relevanceFlag := Json.str "Maybe"
    fullSummary := Json.str ("Error: " ++ msg)
    error := some msg }

/-- `['Relevant', 'Maybe', 'Not Relevant'].includes(v) ? v : 'Maybe'`
(line 177-179): `includes` succeeds exactly when `v` is literally one of the
three strings. -/
def relevanceOr (v : Json) : Json :=
  match v with
  | Json.str s =>
    if s = "Relevant" ∨ s = "Maybe" ∨ s = "Not Relevant"
    then Json.str s else Json.str "Maybe"
  | _ => Json.str "Maybe"

/-- `summarizeDocument` (`src/app/api/process-all/route.ts` lines 120-196).
The extracted text only feeds the prompt of the collaborator call, which the
`ai` oracle abstracts; every failure path lands in the `catch` block, so the
function is total. -/
def summarizeDocument (ai : AIOutcome) (doc : DocumentInfo) : DocumentSummaryJs :=
  match ai with
  | AIOutcome.parsed p =>
    { documentId := jsOr p.documentId doc.id
      date := jsOr p.date doc.date
      type := jsOr p.type doc.type
      siteContext := jsOr p.siteContext "No context extracted"
      contaminantsOfConcern := jsArrOrEmpty p.contaminantsOfConcern
      impactedMedia := jsArrOrEmpty p.impactedMedia
      keyActions := jsOr p.keyActions "None identified"
      relevanceFlag := relevanceOr p.relevanceFlag
      fullSummary := jsOr p.fullSummary "Summary unavailable"
      error := none }
  | outcome => errorSummary doc (outcome.failureMsg)

/-! ## Text Extraction Pipeline (`src/app/api/summarize-pdf/route.ts`)

`extractTextFromPdf` (lines 51-81) cleans the text produced by `pdf-parse`
with three global regex replacements and a trim, counts words longer than two
characters, and either returns the digital text (method `native`) or delegates
entirely to `performOCR` (lines 86-165).  The `pdf-parse` call and the
PDF-to-image conversion plus per-page recognition are oracles. -/

/-- One step of `text.replace(/\r\n/g, '\n')`: a left-to-right scan replacing
each `\r\n` pair by `\n`. -/
def replCRLF : List Char → List Char
  | [] => []
  | '\r' :: '\n' :: cs => '\n' :: replCRLF cs
  | c :: cs => c :: replCRLF cs

/-- Replacement emitted for a maximal run of `n` newlines by
`.replace(/\n{3,}/g, '\n\n')`: runs of three or more collapse to two. -/
def emitNl (n : Nat) : List Char :=
  if n ≥ 3 then ['\n', '\n'] else List.replicate n '\n'

/-- Scan for `.replace(/\n{3,}/g, '\n\n')`, tracking the length of the
current newline run. -/
def collapseNlAux : Nat → List Char → List Char
  | pending, [] => emitNl pending
  | pending, c :: cs =>
    if c = '\n' then collapseNlAux (pending + 1) cs
    else emitNl pending ++ (c :: collapseNlAux 0 cs)

/-- Scan for `.replace(/[ \t]+/g, ' ')`: each maximal run of spaces/tabs
becomes a single space.  The flag records whether a run is pending. -/
def collapseWsAux : Bool → List Char → List Char
  | pending, [] => if pending then [' '] else []
  | pending, c :: cs =>
    if c = ' ' ∨ c = '\t' then collapseWsAux true cs
    else (if pending then [' '] else []) ++ (c :: collapseWsAux false cs)

/-- `String.prototype.trim()` on the character list. -/
def trimChars (cs : List Char) : List Char :=
  ((cs.dropWhile Char.isWhitespace).reverse.dropWhile Char.isWhitespace).reverse

/-- The cleaning chain of `extractTextFromPdf` (lines 56-60):
CRLF normalization, newline-run collapse, space-run collapse, trim. -/
def cleanPdfText (s : String) : String :=
  String.mk (trimChars (collapseWsAux false (collapseNlAux 0 (replCRLF s.data))))

/-- Word counter for `cleanText.split(/\s+/).filter(w => w.length > 2).length`
(line 62): the number of maximal non-whitespace runs longer than two
characters (the empty tokens produced by `split` never pass the filter). -/
def wordCountAux : Nat → List Char → Nat
  | run, [] => if run > 2 then 1 else 0
  | run, c :: cs =>
    if c.isWhitespace then (if run > 2 then 1 else 0) + wordCountAux 0 cs
    else wordCountAux (run + 1) cs

/-- `wordCount` over a string. -/
def wordCount (s : String) : Nat := wordCountAux 0 s.data

/-- `ExtractionResult` (`src/app/api/summarize-pdf/route.ts` lines 29-34);
`method` ranges over the source's tags `native` / `ocr` / `hybrid`, the
spec's digital / optical / merged. -/
structure ExtractionResult where
  text : String
  method : String
  pages : Nat
  confidence : Option Rat
deriving DecidableEq, Repr

/-- Result of `pdf-parse` (`data.text`, `data.numpages`). -/
structure PdfData where
  text : String
  numpages : Nat
deriving DecidableEq, Repr

/-- Environment of one pipeline run: the `pdf-parse` outcome, and the outcome
of PDF-to-image conversion plus per-page recognition — a list of
(page text, confidence) pairs in file order, or the thrown error message. -/
structure ExtractEnv where
  pdfParse : Except String PdfData
  conv : Except String (List (String × Rat))

/-- The page-concatenation loop of `performOCR` (lines 120-130): page texts
joined with page-boundary markers. -/
def ocrAllText (pages : List (String × Rat)) : String :=
  String.join ((pages.enum).map
    (fun p => "\n\n--- Page " ++ toString (p.1 + 1) ++ " ---\n" ++ p.2.1))

/-- Summed per-page confidence (line 129). -/
def ocrTotalConfidence (pages : List (String × Rat)) : Rat :=
  pages.foldl (fun acc p => acc + p.2) 0

/-- `performOCR` (`src/app/api/summarize-pdf/route.ts` lines 86-165).
Conversion failures, the no-images case and the insufficient-text case all
throw; the surrounding `catch` re-wraps every message as `OCR failed: …`.
At most 20 pages are recognized; the confidence is the average over the
recognized pages. -/
def performOCR (env : ExtractEnv) (pageCount : Nat) : Except String ExtractionResult :=
  match env.conv with
  | Except.error e => Except.error ("OCR failed: " ++ e)
  | Except.ok pages =>
    if pages.length = 0 then
      Except.error ("OCR failed: " ++ "PDF to image conversion produced no images")
    else
      if (ocrAllText (pages.take (min pages.length 20))).length < 100 then
        Except.error ("OCR failed: " ++ "OCR produced insufficient text")
      else
        Except.ok
          { text := String.mk (trimChars (ocrAllText (pages.take (min pages.length 20))).data)
            method := "ocr"
            pages := pageCount
            confidence := some (ocrTotalConfidence (pages.take (min pages.length 20))
                                  / ((min pages.length 20 : Nat) : Rat)) }

/-- Body of the `try` block of `extractTextFromPdf` (lines 52-75): clean the
digital text, count words, return method `native` above the threshold of 30,
otherwise delegate to `performOCR` — the digital text is not passed along. -/
def extractTextFromPdfBody (env : ExtractEnv) : Except String ExtractionResult :=
  match env.pdfParse with
  | Except.error e => Except.error e
  | Except.ok data =>
    if wordCount (cleanPdfText data.text) > 30 then
      Except.ok { text := cleanPdfText data.text, method := "native",
                  pages := data.numpages, confidence := none }
    else
      performOCR env data.numpages

/-- `extractTextFromPdf` (lines 51-81): the `catch` block re-throws every
failure as `PDF extraction failed: …`. -/
def extractTextFromPdf (env : ExtractEnv) : Except String ExtractionResult :=
  match extractTextFromPdfBody env with
  | Except.ok r => Except.ok r
  | Except.error e => Except.error ("PDF extraction failed: " ++ e)

/-! ## Document Retriever (`downloadDocument`, `src/lib/iepa-scraper.ts`
lines 208-368, the canonical "v8" scraper)

The strategy cascade is: select the row by index (bounds-checked against the
currently rendered SlickGrid rows), double-click to open the viewer
(possibly a new tab), probe the viewer DOM for a PDF source and fetch it
(accepted only when longer than 500 bytes and starting with byte `0x25`),
then fall back to a toolbar download button whose download-event buffer is
returned **without validation**.  The whole body is wrapped in a `try` whose
`catch` logs and returns `null` — without closing the viewer page.  The DOM
probe (`viewerPage.evaluate`, line 257) runs outside any inner `try`, so its
failure reaches the outer `catch`. -/

/-- Environment of one `downloadDocument` call on the v8 scraper. -/
structure Dl8Env where
  /-- `this.page`/`this.context` are non-null (the `init` ran). -/
  initialized : Bool
  /-- Number of currently rendered `.grid-canvas > div` rows. -/
  numRows : Nat
  /-- Whether the double-click opened a new tab (`viewerPage !== this.page`). -/
  opensNewPage : Bool
  /-- Outcome of the DOM probe for a PDF source (line 257): thrown error,
  or no source found, or a source with a truthy `src`. -/
  probe : Except String (Option String)
  /-- Body of `viewerPage.request.get` on the found source; `none` when the
  fetch threw (caught by the inner `try`, line 317). -/
  fetchBuf : Option (List Nat)
  /-- Whether a toolbar download button matched the selector (line 324). -/
  btnFound : Bool
  /-- Buffer and suggested filename delivered by the `download` event after
  clicking the button; `none` when the wait timed out or yielded no path
  (caught by the inner `try`, line 349). -/
  btnDownload : Option (List Nat × String)

/-- Observable outcome of one `downloadDocument` call. -/
structure DownloadOutcome where
  /-- The returned value (`null` becomes `none`). -/
  result : Option DownloadedDocument
  /-- The grid row that was clicked/double-clicked, if any. -/
  targetedRow : Option Nat
  /-- A transient viewer page (a new tab) was opened during the call. -/
  openedViewer : Bool
  /-- The transient viewer page was closed before returning. -/
  closedViewer : Bool
deriving DecidableEq, Repr

/-- `doc.date.replace(/\//g, '-')` (line 314). -/
def dateDashes (d : String) : String :=
  String.mk (d.data.map (fun c => if c = '/' then '-' else c))

/-- `download.suggestedFilename() || fallback` (line 345). -/
def filenameOr (suggested : String) (fallback : String) : String :=
  if suggested = "" then fallback else suggested

/-- Method 1 of the cascade (lines 298-320): when the probe found a PDF
source and the fetch delivered a body, the buffer is accepted only if it is
longer than 500 bytes and starts with `0x25` (the `%` of `%PDF`); otherwise
the cascade falls through. -/
def m1Fetch (probeRes : Option String) (fetchBuf : Option (List Nat)) : Option (List Nat) :=
  match probeRes with
  | some _src =>
    match fetchBuf with
    | some buf =>
      if buf.length > 500 ∧ buf.head? = some 0x25 then some buf else none
    | none => none
  | none => none

/-- Method 2 of the cascade (lines 322-352): the toolbar download button, when
found, yields whatever buffer the download event delivered — with no
validation of the buffer at all. -/
def m2Btn (btnFound : Bool) (btnDownload : Option (List Nat × String)) :
    Option (List Nat × String) :=
  if btnFound then btnDownload else none

/-- The viewer phase of `downloadDocument` (everything after the row is
selected and double-clicked, lines 231-367): the DOM probe throwing lands in
the outer `catch` (return `null`, no cleanup); otherwise Method 1 and then
Method 2 are tried, and every non-exceptional exit closes the transient page
(the close on the success exits, lines 310 and 341, and the fall-through
cleanup, lines 354-359). -/
def viewerPhase (env : Dl8Env) (doc : DocumentInfo) : DownloadOutcome :=
  match env.probe with
  | Except.error _ =>
    -- outer catch (lines 364-367): return null without viewer cleanup
    { result := none, targetedRow := some (doc.rowIndex.getD 0),
      openedViewer := env.opensNewPage, closedViewer := false }
  | Except.ok probeRes =>
    match m1Fetch probeRes env.fetchBuf with
    | some buf =>
      { result := some
          { info := doc, pdfBuffer := buf
            filename := "doc_" ++ dateDashes doc.date ++ ".pdf" }
        targetedRow := some (doc.rowIndex.getD 0)
        openedViewer := env.opensNewPage, closedViewer := env.opensNewPage }
    | none =>
      match m2Btn env.btnFound env.btnDownload with
      | some bufName =>
        { result := some
            { info := doc, pdfBuffer := bufName.1
              filename := filenameOr bufName.2 ("doc_" ++ doc.date ++ ".pdf") }
          targetedRow := some (doc.rowIndex.getD 0)
          openedViewer := env.opensNewPage, closedViewer := env.opensNewPage }
      | none =>
        { result := none, targetedRow := some (doc.rowIndex.getD 0),
          openedViewer := env.opensNewPage, closedViewer := env.opensNewPage }

/-- `downloadDocument` of the v8 scraper (`src/lib/iepa-scraper.ts` lines
208-368), as a function from the environment and the descriptor to the
observable outcome.  `Except.error` models the only uncaught throw
(`Not initialized`, line 209); every other failure returns `null`.  The
descriptor's `rowIndex` defaults to 0 (line 211) and is bounds-checked
against the rendered rows (lines 226-229) before any click. -/
def downloadDocument8 (env : Dl8Env) (doc : DocumentInfo) : Except String DownloadOutcome :=
  if env.initialized = false then Except.error "Not initialized" else
  if doc.rowIndex.getD 0 ≥ env.numRows then
    Except.ok { result := none, targetedRow := none, openedViewer := false, closedViewer := false }
  else
    Except.ok (viewerPhase env doc)

/-! ## Facility Locator (`searchFacilities`, `src/lib/iepa-scraper.ts`
lines 60-100) and the request validation of the orchestrator route
(`src/app/api/process-all/route.ts` lines 237-244)

`searchFacilities` throws only when the scraper is uninitialized; the query
string is passed verbatim (trimmed) into the portal's name field with no
validation whatsoever, and every result-table row carrying an anchor whose
`href` contains `Documents` is parsed into a `FacilityResult` whose missing
cells become empty strings.  Rows without such an anchor are skipped. -/

/-- One row of the portal's result table: the `href` of the first
`a[href*="Documents"]` anchor, if any, and the trimmed text of its `td`
cells in order. -/
structure RowData where
  documentsLink : Option String
  cells : List String
deriving DecidableEq, Repr

/-- Environment of one `searchFacilities` call. -/
structure SearchEnv where
  initialized : Bool
  rows : List RowData

/-- `href.match(/\/(\d+)/)?.[1]`: the first maximal digit run immediately
following a `/`. -/
def extractIdAux : List Char → Option (List Char)
  | [] => none
  | '/' :: cs =>
    let ds := cs.takeWhile Char.isDigit
    if ds.isEmpty then extractIdAux cs else some ds
  | _ :: cs => extractIdAux cs

/-- `extractIdAux` on a string. -/
def extractIdFromHref (href : String) : Option String :=
  (extractIdAux href.data).map String.mk

/-- Boolean string prefix test (used for `href.startsWith('http')` and for
stating error-message shapes). -/
def strStartsWith (p s : String) : Bool :=
  p.data.isPrefixOf s.data

/-- Parsing of one result row (lines 78-93): a row without a `Documents`
anchor is skipped; otherwise the id comes from the href (falling back to
`f-<row index>`), missing cells become empty strings, and a relative href is
made absolute. -/
def parseFacilityRow (i : Nat) (row : RowData) : Option FacilityResult :=
  match row.documentsLink with
  | none => none
  | some href =>
    some
      { id := (extractIdFromHref href).getD ("f-" ++ toString i)
        name := row.cells.getD 0 ""
        address := row.cells.getD 1 ""
        city := row.cells.getD 2 ""
        county := row.cells.getD 3 ""
        zip := row.cells.getD 4 ""
        programs := []
        link := if strStartsWith "http" href then href
                else "https://webapps.illinois.gov" ++ href }

/-- The whole-table parse (`forEach` with the row index, lines 77-94). -/
def parseFacilityRows (rows : List RowData) : List FacilityResult :=
  (rows.enum).filterMap (fun p => parseFacilityRow p.1 p.2)

/-- `searchFacilities` (lines 60-100): throws only when uninitialized; the
query itself is never validated — it is filled into the portal form and the
resulting table is parsed regardless of its content. -/
def searchFacilities (env : SearchEnv) (_query : String) : Except String (List FacilityResult) :=
  if env.initialized = false then Except.error "Not initialized"
  else Except.ok (parseFacilityRows env.rows)

/-- JS truthiness of an optional string request field (`undefined` or the
empty string are falsy). -/
def jsTruthyOptStr : Option String → Bool
  | none => false
  | some s => s != ""

/-- The request validation of `POST /api/process-all` (lines 237-244):
rejected exactly when `!query && !facilityId`. -/
def validateProcessAll (query facilityId : Option String) : Bool :=
  jsTruthyOptStr query || jsTruthyOptStr facilityId

/-- Count of non-whitespace characters of a query (the spec's measure for a
non-trivial query). -/
def nonWsCount (s : String) : Nat :=
  (s.data.filter (fun c => !c.isWhitespace)).length

/-! ## Processing Orchestrator (`POST`, `src/app/api/process-all/route.ts`
lines 317-380)

For each enumerated descriptor, the loop body (lines 322-366) runs inside a
`try`: a failed or empty download records `Could not download: …` and
continues; extraction (the route's own `extractTextFromPdf`, which re-throws
its errors) either throws — landing in the per-document `catch`, which
records `Error processing …` — or yields text that, if shorter than 50
characters, records `No text extracted: …`; otherwise `summarizeDocument`
(which never throws) produces a summary that is appended.  On an initialized
scraper `downloadDocument` never throws (its body is wrapped in its own
catch-all), so it is modelled by its `Option` result.  The final
`ProcessingResult` (lines 373-380) sets `documentsFound` to the descriptor
count and `documentsProcessed` to `summaries.length`. -/

/-- Per-document environment of one loop iteration. -/
structure DocEnv where
  /-- `scraper.downloadDocument(doc)`: `none` when it returned `null` (or a
  value without a buffer). -/
  download : Option (List Nat)
  /-- The route's `extractTextFromPdf` on the downloaded buffer: text, or the
  thrown error message. -/
  extract : Except String String
  /-- The collaborator outcome for `summarizeDocument`. -/
  ai : AIOutcome

/-- One iteration of the processing loop (lines 334-365): exactly one of a
summary (`Sum.inl`) or a recorded error string (`Sum.inr`). -/
def processDoc (env : DocEnv) (doc : DocumentInfo) : Sum DocumentSummaryJs String :=
  match env.download with
  | none => Sum.inr ("Could not download: " ++ (doc.type ++ (" (" ++ (doc.date ++ ")"))))
  | some _buf =>
    match env.extract with
    | Except.error m =>
      Sum.inr ("Error processing " ++ (doc.type ++ (" (" ++ (doc.date ++ ("): " ++ m)))))
    | Except.ok text =>
      if text.length < 50 then
        Sum.inr ("No text extracted: " ++ (doc.type ++ (" (" ++ (doc.date ++ ")"))))
      else
        Sum.inl (summarizeDocument env.ai doc)

/-- Appending one iteration's outcome to the running
(summaries, errors) accumulator. -/
def processStep (acc : List DocumentSummaryJs × List String)
    (input : DocumentInfo × DocEnv) : List DocumentSummaryJs × List String :=
  match processDoc input.2 input.1 with
  | Sum.inl s => (acc.1 ++ [s], acc.2)
  | Sum.inr e => (acc.1, acc.2 ++ [e])

/-- The final `ProcessingResult` of one run (facility and overview omitted:
both are unconstrained by the claims about counts and lists). -/
structure ProcessingResultM where
  documentsFound : Nat
  documentsProcessed : Nat
  summaries : List DocumentSummaryJs
  errors : List String

/-- The loop of lines 322-366 followed by the result assembly of lines
373-380. -/
def processAll (inputs : List (DocumentInfo × DocEnv)) : ProcessingResultM :=
  let p := inputs.foldl processStep ([], [])
  { documentsFound := inputs.length
    documentsProcessed := p.1.length
    summaries := p.1
    errors := p.2 }

/-! ## Helper lemmas -/

theorem isPrefixOf_append_self (l r : List Char) : l.isPrefixOf (l ++ r) = true := by
  induction l with
  | nil => cases r <;> rfl
  | cons a t ih => simp [List.isPrefixOf, ih]

theorem strStartsWith_append (p r : String) : strStartsWith p (p ++ r) = true := by
  simp [strStartsWith, String.data_append, isPrefixOf_append_self]

theorem relevanceOr_mem (v : Json) :
    relevanceOr v = Json.str "Relevant" ∨ relevanceOr v = Json.str "Maybe" ∨
    relevanceOr v = Json.str "Not Relevant" := by
  cases v with
  | str s =>
    by_cases h : s = "Relevant" ∨ s = "Maybe" ∨ s = "Not Relevant"
    · rcases h with h | h | h <;> subst h <;> simp [relevanceOr]
    · right; left
      simp [relevanceOr, h]
  | null => right; left; rfl
  | bool b => right; left; rfl
  | num n => right; left; rfl
  | arr xs => right; left; rfl

theorem jsArrOrEmpty_isArr (v : Json) : ∃ xs, jsArrOrEmpty v = Json.arr xs := by
  cases v <;> exact ⟨_, rfl⟩

/-- Concrete descriptor used by witnesses about the collaborator. -/
def docW3 : DocumentInfo :=
  { id := "slick-0", type := "Report", date := "1/2/2003",
    category := "LUST Technical", description := "", viewerUrl := none,
    rowIndex := some 0 }

/-! ## Claims about the summarization collaborator boundary -/

/-- Claim C3: for every output of the summarization collaborator — thrown
errors, empty responses, and JSON with missing or mistyped fields — the core's
`summarizeDocument` (a total function: every failure lands in its `catch`)
produces a `DocumentSummary` whose `relevanceFlag` is exactly one of
`Relevant` / `Maybe` / `Not Relevant`, whose `contaminantsOfConcern` and
`impactedMedia` are always arrays, and a collaborator failure is never
propagated: it degrades to an error-flagged summary (with the `error` field
set and `relevanceFlag` `Maybe`). -/
theorem c3_collaborator_safe_defaults :
    ∀ (ai : AIOutcome) (doc : DocumentInfo),
      ((summarizeDocument ai doc).relevanceFlag = Json.str "Relevant" ∨
       (summarizeDocument ai doc).relevanceFlag = Json.str "Maybe" ∨
       (summarizeDocument ai doc).relevanceFlag = Json.str "Not Relevant") ∧
      (∃ xs, (summarizeDocument ai doc).contaminantsOfConcern = Json.arr xs) ∧
      (∃ ys, (summarizeDocument ai doc).impactedMedia = Json.arr ys) ∧
      (ai.isFailure = true →
        (summarizeDocument ai doc).error = some ai.failureMsg ∧
        (summarizeDocument ai doc).relevanceFlag = Json.str "Maybe") := by
  intro ai doc
  cases ai with
  | parsed p =>
    refine ⟨relevanceOr_mem p.relevanceFlag, jsArrOrEmpty_isArr _, jsArrOrEmpty_isArr _, ?_⟩
    intro h
    simp [AIOutcome.isFailure] at h
  | apiError m => exact ⟨Or.inr (Or.inl rfl), ⟨[], rfl⟩, ⟨[], rfl⟩, fun _ => ⟨rfl, rfl⟩⟩
  | emptyContent => exact ⟨Or.inr (Or.inl rfl), ⟨[], rfl⟩, ⟨[], rfl⟩, fun _ => ⟨rfl, rfl⟩⟩
  | invalidJson m => exact ⟨Or.inr (Or.inl rfl), ⟨[], rfl⟩, ⟨[], rfl⟩, fun _ => ⟨rfl, rfl⟩⟩

/-- Witness for C3 at a concrete collaborator failure. -/
theorem c3_collaborator_safe_defaults_witness :
    (AIOutcome.apiError "rate limit").isFailure = true ∧
    (summarizeDocument (AIOutcome.apiError "rate limit") docW3).error =
      some (AIOutcome.apiError "rate limit").failureMsg ∧
    (summarizeDocument (AIOutcome.apiError "rate limit") docW3).relevanceFlag =
      Json.str "Maybe" :=
  ⟨rfl, (c3_collaborator_safe_defaults (AIOutcome.apiError "rate limit") docW3).2.2.2 rfl⟩

/-! ## Claims about the Text Extraction Pipeline -/

/-- Claim C5: when digital extraction yields a word count (over tokens longer
than two characters) above the fixed threshold of 30, the pipeline returns
immediately with the extraction method tag `native` (the spec's "digital"),
and the optical-recognition step is never invoked: the result is independent
of the OCR oracle. -/
theorem c5_digital_short_circuit :
    ∀ (env : ExtractEnv) (data : PdfData),
      env.pdfParse = Except.ok data →
      wordCount (cleanPdfText data.text) > 30 →
      extractTextFromPdf env =
        Except.ok { text := cleanPdfText data.text, method := "native",
                    pages := data.numpages, confidence := none } ∧
      (∀ env2 : ExtractEnv, env2.pdfParse = env.pdfParse →
        extractTextFromPdf env2 = extractTextFromPdf env) := by
  intro env data hparse hwc
  have hbody : ∀ e : ExtractEnv, e.pdfParse = Except.ok data →
      extractTextFromPdf e =
        Except.ok { text := cleanPdfText data.text, method := "native",
                    pages := data.numpages, confidence := none } := by
    intro e he
    unfold extractTextFromPdf extractTextFromPdfBody
    rw [he]
    simp [hwc]
  refine ⟨hbody env hparse, ?_⟩
  intro env2 h2
  rw [hbody env hparse, hbody env2 (h2.trans hparse)]

/-- Concrete environment for the C5 witness: 31 words of three letters, an
OCR oracle that would throw if it were ever consulted. -/
def envW5 : ExtractEnv :=
  { pdfParse := Except.ok
      { text := "abc abc abc abc abc abc abc abc abc abc abc abc abc abc abc abc abc abc abc abc abc abc abc abc abc abc abc abc abc abc abc"
        numpages := 4 }
    conv := Except.error "OCR must not run" }

/-- Witness for C5: the 31-word digital text is returned as method `native`
even though the OCR oracle would fail. -/
theorem c5_digital_short_circuit_witness :
    wordCount (cleanPdfText "abc abc abc abc abc abc abc abc abc abc abc abc abc abc abc abc abc abc abc abc abc abc abc abc abc abc abc abc abc abc abc") > 30 ∧
    extractTextFromPdf envW5 =
      Except.ok { text := cleanPdfText "abc abc abc abc abc abc abc abc abc abc abc abc abc abc abc abc abc abc abc abc abc abc abc abc abc abc abc abc abc abc abc"
                  method := "native", pages := 4, confidence := none } :=
  ⟨by decide,
   (c5_digital_short_circuit envW5
      { text := "abc abc abc abc abc abc abc abc abc abc abc abc abc abc abc abc abc abc abc abc abc abc abc abc abc abc abc abc abc abc abc"
        numpages := 4 } rfl (by decide)).1⟩

/-- Helper for C4: a successful `performOCR` always carries method `ocr`. -/
theorem performOCR_method (env : ExtractEnv) (n : Nat) (r : ExtractionResult)
    (h : performOCR env n = Except.ok r) : r.method = "ocr" := by
  unfold performOCR at h
  split at h
  · cases h
  · split at h
    · cases h
    · split at h
      · cases h
      · cases h; rfl

/-- Concrete environment for the C4 counterexample: digital extraction yields
the non-trivial but sub-threshold text `hi there all good` (three words longer
than two characters), and optical recognition succeeds with one 90-character
page. -/
def envC4 : ExtractEnv :=
  { pdfParse := Except.ok { text := "hi there all good", numpages := 2 }
    conv := Except.ok [(String.mk (List.replicate 90 'o'), (80 : Rat))] }

/-- Counterexample to claim C4: digital text is non-trivial (3 words) but
sub-threshold, optical recognition succeeds — yet the pipeline returns method
`ocr` (the result of `performOCR` alone), not the merged method `hybrid`,
discarding the digital text. -/
theorem c4_no_merge_counterexample :
    0 < wordCount (cleanPdfText "hi there all good") ∧
    wordCount (cleanPdfText "hi there all good") ≤ 30 ∧
    (extractTextFromPdf envC4).toOption.map ExtractionResult.method = some "ocr" := by
  refine ⟨by decide, by decide, ?_⟩
  rfl

/-- Claim C4, amended to what the code does: no merged result exists.  A
successful extraction carries method `native` or `ocr`, never `hybrid`; and
when the digital pass is sub-threshold and optical recognition succeeds, the
returned result is exactly the OCR result — the digital text is discarded
rather than merged. -/
theorem c4_no_merge_amended :
    (∀ (env : ExtractEnv) (r : ExtractionResult),
        extractTextFromPdf env = Except.ok r →
        r.method = "native" ∨ r.method = "ocr") ∧
    (∀ (env : ExtractEnv) (data : PdfData) (r : ExtractionResult),
        env.pdfParse = Except.ok data →
        wordCount (cleanPdfText data.text) ≤ 30 →
        performOCR env data.numpages = Except.ok r →
        extractTextFromPdf env = Except.ok r) := by
  constructor
  · intro env r h
    unfold extractTextFromPdf at h
    cases hb : extractTextFromPdfBody env with
    | error e => rw [hb] at h; cases h
    | ok r2 =>
      rw [hb] at h
      cases h
      unfold extractTextFromPdfBody at hb
      split at hb
      · cases hb
      · split at hb
        · cases hb
          exact Or.inl rfl
        · exact Or.inr (performOCR_method _ _ _ hb)
  · intro env data r hparse hwc hocr
    have hbody : extractTextFromPdfBody env = Except.ok r := by
      simp only [extractTextFromPdfBody, hparse]
      rw [if_neg (by omega)]
      exact hocr
    simp only [extractTextFromPdf, hbody]

/-- Witness for the amended C4 at the concrete environment `envC4`: the
pipeline returns the OCR page text with method `ocr` (the confidence
expression evaluates to 80). -/
theorem c4_no_merge_amended_witness :
    extractTextFromPdf envC4 =
      Except.ok { text := "--- Page 1 ---\n" ++ String.mk (List.replicate 90 'o')
                  method := "ocr", pages := 2
                  confidence := some (((0 : Rat) + 80) / ((min 1 20 : Nat) : Rat)) } :=
  (c4_no_merge_amended).2 envC4 { text := "hi there all good", numpages := 2 }
    { text := "--- Page 1 ---\n" ++ String.mk (List.replicate 90 'o')
      method := "ocr", pages := 2
      confidence := some (((0 : Rat) + 80) / ((min 1 20 : Nat) : Rat)) }
    rfl (by decide) (by rfl)

/-! ## Claims about the Document Retriever -/

/-- Concrete descriptor for the C1 counterexample. -/
def docC1 : DocumentInfo :=
  { id := "slick-0", type := "Correspondence", date := "3/4/2005",
    category := "LUST Technical", description := "", viewerUrl := none,
    rowIndex := some 0 }

/-- Concrete environment for the C1 counterexample: the DOM probe finds no
PDF source and the cascade falls through to the toolbar download button,
whose download event delivers a one-byte buffer `[0]`. -/
def envC1 : Dl8Env :=
  { initialized := true, numRows := 1, opensNewPage := true
    probe := Except.ok none, fetchBuf := none
    btnFound := true, btnDownload := some ([0], "scan.pdf") }

/-- Helper for C1: a buffer accepted by Method 1 passed the size and
magic-byte validation. -/
theorem m1Fetch_valid (p : Option String) (fb : Option (List Nat)) (buf : List Nat)
    (h : m1Fetch p fb = some buf) : buf.length > 500 ∧ buf.head? = some 0x25 := by
  unfold m1Fetch at h
  split at h
  · split at h
    · split at h
      next hv =>
        cases h
        exact hv
      · cases h
    · cases h
  · cases h

/-- Helper for C1: a buffer delivered through Method 2 is exactly the
download-event buffer. -/
theorem m2Btn_some (bf : Bool) (bd : Option (List Nat × String)) (x : List Nat × String)
    (h : m2Btn bf bd = some x) : bd = some x := by
  unfold m2Btn at h
  split at h
  · exact h
  · cases h

/-- Every buffer in a returned document of the viewer phase either passed the
Method 1 validation or is exactly the Method 2 download-event buffer. -/
theorem viewerPhase_result_valid (env : Dl8Env) (doc : DocumentInfo) (d : DownloadedDocument)
    (h : (viewerPhase env doc).result = some d) :
    (d.pdfBuffer.length > 500 ∧ d.pdfBuffer.head? = some 0x25) ∨
    (∃ s, env.btnDownload = some (d.pdfBuffer, s)) := by
  unfold viewerPhase at h
  cases hp : env.probe with
  | error e => simp [hp] at h
  | ok probeRes =>
    simp only [hp] at h
    cases hm1 : m1Fetch probeRes env.fetchBuf with
    | some buf =>
      simp only [hm1, Option.some.injEq] at h
      subst h
      exact Or.inl (m1Fetch_valid _ _ _ hm1)
    | none =>
      simp only [hm1] at h
      cases hm2 : m2Btn env.btnFound env.btnDownload with
      | some bufName =>
        simp only [hm2, Option.some.injEq] at h
        subst h
        exact Or.inr ⟨bufName.2, m2Btn_some _ _ _ hm2⟩
      | none => simp [hm2] at h

/-- The viewer phase reports a transient page exactly when the double-click
opened one. -/
theorem viewerPhase_opened (env : Dl8Env) (doc : DocumentInfo) :
    (viewerPhase env doc).openedViewer = env.opensNewPage := by
  unfold viewerPhase
  split
  · rfl
  · split
    · rfl
    · split
      · rfl
      · rfl

/-- When the DOM probe does not throw, the viewer phase closes the transient
page on every exit. -/
theorem viewerPhase_closes (env : Dl8Env) (doc : DocumentInfo)
    (hnoexc : ∀ e, env.probe ≠ Except.error e) :
    (viewerPhase env doc).closedViewer = env.opensNewPage := by
  unfold viewerPhase
  split
  next e heq => exact absurd heq (hnoexc e)
  next probeRes heq =>
    split
    · rfl
    · split
      · rfl
      · rfl

/-- The viewer phase always targets the descriptor's `rowIndex` defaulted
to 0. -/
theorem viewerPhase_targetedRow (env : Dl8Env) (doc : DocumentInfo) :
    (viewerPhase env doc).targetedRow = some (doc.rowIndex.getD 0) := by
  unfold viewerPhase
  split
  · rfl
  · split
    · rfl
    · split
      · rfl
      · rfl

/-- Counterexample to claim C1: the toolbar download-button strategy returns
the delivered buffer `[0]` as a `DownloadedDocument` even though it does not
begin with the magic byte `0x25` (and does not exceed the 500-byte minimum):
the retriever returns a buffer not beginning with the magic header. -/
theorem c1_magic_header_counterexample :
    downloadDocument8 envC1 docC1 =
      Except.ok
        { result := some { info := docC1, pdfBuffer := [0], filename := "scan.pdf" }
          targetedRow := some 0, openedViewer := true, closedViewer := true } ∧
    List.head? [0] ≠ some 0x25 ∧ ¬ List.length [0] > 500 :=
  ⟨rfl, by decide, by decide⟩

/-- Claim C1, amended to what the code does: a buffer accepted by the
network/iframe fetch strategy is validated (longer than 500 bytes and first
byte `0x25`), but a buffer delivered by the toolbar download event is
returned without any magic-header or size validation — so every returned
buffer either passed the validation or is exactly a download-event buffer,
and only the latter may lack the magic header. -/
theorem c1_magic_header_amended :
    ∀ (env : Dl8Env) (doc : DocumentInfo) (out : DownloadOutcome) (d : DownloadedDocument),
      downloadDocument8 env doc = Except.ok out →
      out.result = some d →
      (d.pdfBuffer.length > 500 ∧ d.pdfBuffer.head? = some 0x25) ∨
      (∃ s, env.btnDownload = some (d.pdfBuffer, s)) := by
  intro env doc out d h hres
  unfold downloadDocument8 at h
  split at h
  · cases h
  · split at h
    · cases h
      exact Option.noConfusion hres
    · cases h
      exact viewerPhase_result_valid env doc d hres

/-- Witness for the amended C1 at the concrete toolbar-path environment. -/
theorem c1_magic_header_amended_witness :
    (List.length [0] > 500 ∧ List.head? [0] = some 0x25) ∨
    (∃ s, envC1.btnDownload = some ([0], s)) :=
  c1_magic_header_amended envC1 docC1
    { result := some { info := docC1, pdfBuffer := [0], filename := "scan.pdf" }
      targetedRow := some 0, openedViewer := true, closedViewer := true }
    { info := docC1, pdfBuffer := [0], filename := "scan.pdf" } rfl rfl

/-- Concrete descriptor for the C6 counterexample. -/
def docC6 : DocumentInfo :=
  { id := "slick-0", type := "Site Investigation", date := "7/8/2010",
    category := "LUST Technical", description := "", viewerUrl := none,
    rowIndex := some 0 }

/-- Concrete environment for the C6 counterexample: the double-click opened a
new viewer tab and then the DOM probe threw (for instance because the viewer
navigated away), landing in the outer `catch`. -/
def envC6 : Dl8Env :=
  { initialized := true, numRows := 1, opensNewPage := true
    probe := Except.error "page crashed", fetchBuf := none
    btnFound := false, btnDownload := none }

/-- Counterexample to claim C6: on the path where an exception is caught
internally and `null` is returned (the outer `catch`, lines 364-367), the
transient viewer page that was opened is NOT closed before the call
returns. -/
theorem c6_viewer_closed_counterexample :
    downloadDocument8 envC6 docC6 =
      Except.ok { result := none, targetedRow := some 0,
                  openedViewer := true, closedViewer := false } :=
  rfl

/-- Claim C6, amended to what the code does: on every path on which no
exception reaches the outer `catch` (success, fall-through cleanup, and the
out-of-range early return), a transient viewer page that was opened is closed
before the call returns; but on the internally-caught exception path the
viewer page is left open. -/
theorem c6_viewer_closed_amended :
    ∀ (env : Dl8Env) (doc : DocumentInfo) (out : DownloadOutcome),
      downloadDocument8 env doc = Except.ok out →
      (∀ e, env.probe ≠ Except.error e) →
      out.openedViewer = true →
      out.closedViewer = true := by
  intro env doc out h hnoexc hopen
  unfold downloadDocument8 at h
  split at h
  · cases h
  · split at h
    · cases h
      exact Bool.noConfusion hopen
    · cases h
      rw [viewerPhase_closes env doc hnoexc]
      rw [viewerPhase_opened env doc] at hopen
      exact hopen

/-- Environment for the C6 witness: no exception, strategies exhaust, the
opened viewer is closed by the cleanup path. -/
def envW6 : Dl8Env :=
  { initialized := true, numRows := 1, opensNewPage := true
    probe := Except.ok none, fetchBuf := none
    btnFound := false, btnDownload := none }

/-- Witness for the amended C6 at the exhausted-cascade environment. -/
theorem c6_viewer_closed_amended_witness :
    ({ result := none, targetedRow := some 0, openedViewer := true,
       closedViewer := true } : DownloadOutcome).closedViewer = true :=
  c6_viewer_closed_amended envW6 docC6
    { result := none, targetedRow := some 0, openedViewer := true, closedViewer := true }
    rfl (fun e he => by cases he) rfl

/-- Claim C9: on an initialized scraper, a descriptor without a `rowIndex` is
treated as `rowIndex` 0 — row 0 of the grid is the targeted row (when any row
is rendered) — and a descriptor whose `rowIndex` is at least the number of
rendered rows makes the call return `null` (no exception: the result is an
`Except.ok` carrying `none`, with no row targeted and no viewer opened). -/
theorem c9_row_index_bounds :
    (∀ (env : Dl8Env) (doc : DocumentInfo),
        env.initialized = true → doc.rowIndex = none → 0 < env.numRows →
        ∃ out, downloadDocument8 env doc = Except.ok out ∧ out.targetedRow = some 0) ∧
    (∀ (env : Dl8Env) (doc : DocumentInfo),
        env.initialized = true → env.numRows ≤ doc.rowIndex.getD 0 →
        downloadDocument8 env doc =
          Except.ok { result := none, targetedRow := none,
                      openedViewer := false, closedViewer := false }) := by
  constructor
  · intro env doc hinit hnone hrows
    refine ⟨viewerPhase env doc, ?_, ?_⟩
    · unfold downloadDocument8
      rw [if_neg (show ¬(env.initialized = false) by simp [hinit])]
      rw [if_neg (show ¬(doc.rowIndex.getD 0 ≥ env.numRows) by
            rw [hnone]; simp only [Option.getD_none]; omega)]
    · rw [viewerPhase_targetedRow, hnone]
      rfl
  · intro env doc hinit hrange
    unfold downloadDocument8
    rw [if_neg (show ¬(env.initialized = false) by simp [hinit])]
    rw [if_pos hrange]

/-- Environments and descriptors for the C9 witness. -/
def envW9a : Dl8Env :=
  { initialized := true, numRows := 1, opensNewPage := false
    probe := Except.ok none, fetchBuf := none, btnFound := false, btnDownload := none }

def docW9a : DocumentInfo :=
  { id := "date-0", type := "Document", date := "1/1/1999",
    category := "LUST Technical", description := "", viewerUrl := none,
    rowIndex := none }

def envW9b : Dl8Env :=
  { initialized := true, numRows := 2, opensNewPage := false
    probe := Except.ok none, fetchBuf := none, btnFound := false, btnDownload := none }

def docW9b : DocumentInfo :=
  { id := "slick-7", type := "Document", date := "2/2/1999",
    category := "LUST Technical", description := "", viewerUrl := none,
    rowIndex := some 7 }

/-- Witness for C9 at concrete descriptors: one without a `rowIndex` (row 0
targeted), one with `rowIndex` 7 against 2 rendered rows (`null`, no
throw). -/
theorem c9_row_index_bounds_witness :
    (∃ out, downloadDocument8 envW9a docW9a = Except.ok out ∧ out.targetedRow = some 0) ∧
    downloadDocument8 envW9b docW9b =
      Except.ok { result := none, targetedRow := none,
                  openedViewer := false, closedViewer := false } :=
  ⟨c9_row_index_bounds.1 envW9a docW9a rfl rfl (by decide),
   c9_row_index_bounds.2 envW9b docW9b rfl (by decide)⟩

/-! ## Claims about the search boundary -/

/-- Concrete environment for C7: one well-formed result row. -/
def envC7 : SearchEnv :=
  { initialized := true
    rows := [ { documentsLink := some "/EPA/DocumentExplorer/Documents/Index/12345"
                cells := ["ACME METALS", "1 Main St", "Springfield", "Sangamon", "62701"] } ] }

/-- Counterexample to claim C7: the one-character query `a` has fewer than
two non-whitespace characters, yet the request validation accepts it and
`searchFacilities` performs the search and returns the parsed results — no
boundary rejects near-empty queries. -/
theorem c7_min_query_counterexample :
    nonWsCount "a" = 1 ∧
    validateProcessAll (some "a") none = true ∧
    searchFacilities envC7 "a" =
      Except.ok
        [ { id := "12345", name := "ACME METALS", address := "1 Main St"
            city := "Springfield", county := "Sangamon", zip := "62701"
            programs := []
            link := "https://webapps.illinois.gov/EPA/DocumentExplorer/Documents/Index/12345" } ] :=
  ⟨by decide, rfl, by rfl⟩

/-- Claim C7, amended to what the code does: the only rejected request is one
whose `query` is absent or the empty string (with no `facilityId`); every
other query — including single-character and whitespace-only ones — passes
validation, and `searchFacilities` performs the search for every query on an
initialized scraper, with no query-length validation anywhere. -/
theorem c7_min_query_amended :
    (∀ q : String, validateProcessAll (some q) none = false ↔ q = "") ∧
    (∀ (env : SearchEnv) (q : String), env.initialized = true →
        searchFacilities env q = Except.ok (parseFacilityRows env.rows)) := by
  constructor
  · intro q
    simp [validateProcessAll, jsTruthyOptStr]
  · intro env q h
    unfold searchFacilities
    rw [if_neg (show ¬(env.initialized = false) by simp [h])]

/-- Witness for the amended C7: the empty query is the only rejected one, and
a one-character query is searched. -/
theorem c7_min_query_amended_witness :
    (validateProcessAll (some "") none = false ↔ ("" : String) = "") ∧
    searchFacilities envC7 "a" = Except.ok (parseFacilityRows envC7.rows) :=
  ⟨c7_min_query_amended.1 "", c7_min_query_amended.2 envC7 "a" rfl⟩

/-- Concrete row for the C8 counterexample: a malformed row with a name cell
but no `Documents` anchor. -/
def rowC8 : RowData := { documentsLink := none, cells := ["ACME METALS"] }

/-- Counterexample to claim C8: a result-table row missing the expected
columns (it has no `Documents` anchor) does NOT yield a blank-field record —
it is dropped from the returned list entirely. -/
theorem c8_blank_rows_counterexample :
    parseFacilityRow 0 rowC8 = none ∧ parseFacilityRows [rowC8] = [] :=
  ⟨rfl, rfl⟩

/-- Claim C8, amended to what the code does: a row that carries a `Documents`
anchor but is missing its column cells yields a record with blank name,
address, city, county and zip (the id falling back from the href), rather
than being dropped; but a row without a `Documents`-matching anchor is
dropped from the returned list. -/
theorem c8_blank_rows_amended :
    ∀ (i : Nat) (row : RowData),
      (row.documentsLink = none → parseFacilityRow i row = none) ∧
      (∀ href, row.documentsLink = some href → row.cells = [] →
        ∃ fid flink, parseFacilityRow i row =
          some { id := fid, name := "", address := "", city := "", county := ""
                 zip := "", programs := [], link := flink }) := by
  intro i row
  constructor
  · intro hnone
    unfold parseFacilityRow
    rw [hnone]
  · intro href hsome hcells
    unfold parseFacilityRow
    rw [hsome, hcells]
    exact ⟨_, _, rfl⟩

/-- Concrete row for the C8 witness: a linked row with no cells at all. -/
def rowW8 : RowData := { documentsLink := some "/Documents/Index/777", cells := [] }

/-- Witness for the amended C8: the cell-less linked row yields a blank-field
record. -/
theorem c8_blank_rows_amended_witness :
    ∃ fid flink, parseFacilityRow 3 rowW8 =
      some { id := fid, name := "", address := "", city := "", county := ""
             zip := "", programs := [], link := flink } :=
  (c8_blank_rows_amended 3 rowW8).2 "/Documents/Index/777" rfl rfl

/-! ## Claims about the Processing Orchestrator -/

/-- Each loop iteration grows exactly one of the two accumulated lists. -/
theorem processFold_length (inputs : List (DocumentInfo × DocEnv)) :
    ∀ acc : List DocumentSummaryJs × List String,
      (inputs.foldl processStep acc).1.length + (inputs.foldl processStep acc).2.length
        = acc.1.length + acc.2.length + inputs.length := by
  induction inputs with
  | nil => intro acc; simp
  | cons hd t ih =>
    intro acc
    rw [List.foldl_cons, ih]
    cases hpd : processDoc hd.2 hd.1 <;>
      simp [processStep, hpd, List.length_append] <;> omega

/-- Every accumulated error string was produced by some iteration. -/
theorem processFold_errors_mem (inputs : List (DocumentInfo × DocEnv)) :
    ∀ (acc : List DocumentSummaryJs × List String) (e : String),
      e ∈ (inputs.foldl processStep acc).2 →
      e ∈ acc.2 ∨ ∃ p, p ∈ inputs ∧ processDoc p.2 p.1 = Sum.inr e := by
  induction inputs with
  | nil => intro acc e h; exact Or.inl h
  | cons hd t ih =>
    intro acc e h
    rw [List.foldl_cons] at h
    rcases ih (processStep acc hd) e h with hmem | ⟨p, hp, hpe⟩
    · cases hpd : processDoc hd.2 hd.1 with
      | inl s =>
        simp only [processStep, hpd] at hmem
        exact Or.inl hmem
      | inr e2 =>
        simp only [processStep, hpd] at hmem
        rcases List.mem_append.mp hmem with hacc | hnew
        · exact Or.inl hacc
        · refine Or.inr ⟨hd, List.mem_cons_self hd t, ?_⟩
          rw [hpd]
          rw [List.mem_singleton.mp hnew]
    · exact Or.inr ⟨p, List.mem_cons_of_mem hd hp, hpe⟩

/-- Every error string an iteration records is a retrieval or extraction
fault: it starts with one of the three message shapes of lines 339, 347
and 364. -/
theorem processDoc_inr_shape (env : DocEnv) (doc : DocumentInfo) (e : String)
    (h : processDoc env doc = Sum.inr e) :
    strStartsWith "Could not download: " e = true ∨
    strStartsWith "No text extracted: " e = true ∨
    strStartsWith "Error processing " e = true := by
  unfold processDoc at h
  split at h
  · cases h
    exact Or.inl (strStartsWith_append _ _)
  · split at h
    · cases h
      exact Or.inr (Or.inr (strStartsWith_append _ _))
    · split at h
      · cases h
        exact Or.inr (Or.inl (strStartsWith_append _ _))
      · cases h

/-- Claim C2: for every enumerated descriptor list of length N, each
descriptor yields exactly one of a summary or a recorded retrieval/extraction
error (the loop body appends exactly one of the two), so
`summaries.length + errors.length = documentsFound = N`, and
`documentsProcessed` equals `summaries.length`. -/
theorem c2_partition_invariant :
    ∀ inputs : List (DocumentInfo × DocEnv),
      (processAll inputs).summaries.length + (processAll inputs).errors.length
        = (processAll inputs).documentsFound ∧
      (processAll inputs).documentsProcessed = (processAll inputs).summaries.length := by
  intro inputs
  constructor
  · have h := processFold_length inputs ([], [])
    simpa [processAll] using h
  · rfl

/-- Claim C10: a document whose summarization call fails still counts as
processed — the loop appends the error-flagged placeholder summary (with
`relevanceFlag` `Maybe` and the `error` field set) to `summaries` and records
nothing in `errors` (so `documentsProcessed`, which equals
`summaries.length`, counts it); and the `errors` list only ever holds
retrieval and extraction fault messages, never collaborator faults. -/
theorem c10_collaborator_failure_processed :
    (∀ (env : DocEnv) (doc : DocumentInfo) (buf : List Nat) (text : String),
        env.download = some buf → env.extract = Except.ok text →
        ¬ text.length < 50 → env.ai.isFailure = true →
        processDoc env doc = Sum.inl (summarizeDocument env.ai doc) ∧
        (summarizeDocument env.ai doc).error = some env.ai.failureMsg ∧
        (summarizeDocument env.ai doc).relevanceFlag = Json.str "Maybe") ∧
    (∀ (inputs : List (DocumentInfo × DocEnv)) (e : String),
        e ∈ (processAll inputs).errors →
        strStartsWith "Could not download: " e = true ∨
        strStartsWith "No text extracted: " e = true ∨
        strStartsWith "Error processing " e = true) := by
  constructor
  · intro env doc buf text hdl hex hlen hfail
    refine ⟨?_, ?_⟩
    · unfold processDoc
      simp only [hdl, hex]
      rw [if_neg hlen]
    · cases hai : env.ai with
      | parsed p =>
        rw [hai] at hfail
        cases hfail
      | apiError m => exact ⟨rfl, rfl⟩
      | emptyContent => exact ⟨rfl, rfl⟩
      | invalidJson m => exact ⟨rfl, rfl⟩
  · intro inputs e hmem
    have h := processFold_errors_mem inputs ([], []) e (by simpa [processAll] using hmem)
    rcases h with hnil | ⟨p, _, hpe⟩
    · cases hnil
    · exact processDoc_inr_shape p.2 p.1 e hpe

/-- Concrete environment and descriptor for the C10 witness. -/
def envW10 : DocEnv :=
  { download := some [0x25, 0x50, 0x44, 0x46]
    extract := Except.ok "This facility underwent tank removal and groundwater monitoring."
    ai := AIOutcome.emptyContent }

def docW10 : DocumentInfo :=
  { id := "slick-2", type := "Closure Report", date := "9/9/2015",
    category := "LUST Technical", description := "", viewerUrl := none,
    rowIndex := some 2 }

/-- Witness for C10 at a concrete empty collaborator response. -/
theorem c10_collaborator_failure_processed_witness :
    processDoc envW10 docW10 = Sum.inl (summarizeDocument envW10.ai docW10) ∧
    (summarizeDocument envW10.ai docW10).error = some envW10.ai.failureMsg ∧
    (summarizeDocument envW10.ai docW10).relevanceFlag = Json.str "Maybe" :=
  c10_collaborator_failure_processed.1 envW10 docW10 [0x25, 0x50, 0x44, 0x46]
    "This facility underwent tank removal and groundwater monitoring."
    rfl rfl (by decide) rfl

end IEPA
